import Mathlib

/-!
Verification of the jira-mcp-server adapter (src/main.go).

The Go program is a thin adapter between an MCP tool-invocation surface and
a Jira issue tracker.  We shallowly embed the two tool handlers
(`CreateJiraIssue`, `UpdateJiraIssue`), the user-lookup helper
(`findJiraUser`), and the configuration loader (`loadConfig`).

Modelling conventions:
 - Go strings are `List Char` (`GoStr`); the string helpers from Go's
   `strings` package that the program uses (`Contains`, `ToLower`, `SplitN`
   with n = 2, `Split` on a newline followed by taking the first piece,
   `TrimSpace`, `EqualFold`, `HasPrefix`, `TrimSuffix`) are embedded as
   structurally recursive functions below.  Case folding is modelled on
   ASCII letters (`Char.toLower`), which covers every string the program
   compares; `SplitN` is only ever called with the non-empty separator
   "assign to:", so the empty-separator behaviour of Go is not modelled.
 - The Jira REST client is an oracle (`JiraClient`): one response function
   per outbound endpoint the program calls.  Handlers additionally return
   the list of outbound calls they issued (`JiraCall`), so that frame
   properties ("no transition call is ever made", "the submitted issue is
   ...") are statable.  `JiraCall.doTransition` is the workflow-transition
   endpoint of the tracker, which the program never invokes.
 - A Go `(result, any, error)` handler return becomes `HandlerOutput`:
   the MCP result (content texts plus the `IsError` flag, which the Go code
   never sets and therefore stays `false`), the Go `error` component as an
   `Option GoStr`, and the call trace.
 - Jira's update payload `{"update": {field: [{"set": v}]}}` is modelled as
   an association list from field name to a `FieldOp.set` directive; the
   constant outer "update" wrapper is dropped.
-/

/-- Go strings, as lists of characters. -/
abbrev GoStr := List Char

/-- Go `strings.ToLower`, restricted to ASCII case folding. -/
def toLowerG (s : GoStr) : GoStr := s.map Char.toLower

/-- Whether the first list is a leading segment of the second
(Go `strings.HasPrefix`). -/
def isPrefixG : GoStr → GoStr → Bool
  | [], _ => true
  | _ :: _, [] => false
  | a :: as, b :: bs => decide (a = b) && isPrefixG as bs

/-- Go `strings.Contains`: does `pat` occur as a contiguous segment of `s`? -/
def containsSub : GoStr → GoStr → Bool
  | [], pat => pat.isEmpty
  | c :: rest, pat => isPrefixG pat (c :: rest) || containsSub rest pat

/-- Go `strings.SplitN(s, sep, 2)` for a non-empty separator: split at the
first occurrence of `sep`, yielding one piece when `sep` does not occur and
two pieces otherwise. -/
def splitN2 (sep : GoStr) : GoStr → List GoStr
  | [] => [[]]
  | c :: rest =>
    if isPrefixG sep (c :: rest) then [[], (c :: rest).drop sep.length]
    else
      match splitN2 sep rest with
      | [] => [[c]]
      | pre :: tail => (c :: pre) :: tail

/-- ASCII whitespace, as recognised by Go `unicode.IsSpace` on the ASCII
range. -/
def isGoSpace (c : Char) : Bool :=
  decide (c = ' ') || decide (c = '\t') || decide (c = '\n') ||
  decide (c = '\r') || decide (c = '\x0b') || decide (c = '\x0c')

/-- Go `strings.TrimSpace` (ASCII whitespace). -/
def trimSpace (s : GoStr) : GoStr :=
  ((s.dropWhile isGoSpace).reverse.dropWhile isGoSpace).reverse

/-- `strings.Split(s, "\n")[0]`: the segment of `s` before its first
newline (all of `s` when it has none). -/
def takeLine (s : GoStr) : GoStr := s.takeWhile (fun c => decide (c ≠ '\n'))

/-- Go `strings.EqualFold`, restricted to ASCII case folding. -/
def eqFold (a b : GoStr) : Bool := decide (toLowerG a = toLowerG b)

/-- Whether the first list is a trailing segment of the second
(Go `strings.HasSuffix`). -/
def isSuffixG (sfx s : GoStr) : Bool := isPrefixG sfx.reverse s.reverse

/-- Go `strings.TrimSuffix`. -/
def trimSuffixG (s sfx : GoStr) : GoStr :=
  if isSuffixG sfx s then s.take (s.length - sfx.length) else s

/-- A Jira user record (the fields of `jira.User` that the program reads or
writes: `AccountID`, `DisplayName`, `EmailAddress`, `Name`). -/
structure JiraUser where
  accountID : GoStr
  displayName : GoStr
  emailAddress : GoStr
  name : GoStr
deriving DecidableEq

/-- The server configuration (`JiraConfig` in src/main.go). -/
structure JiraConfig where
  baseURL : GoStr
  username : GoStr
  apiToken : GoStr
  projectKey : GoStr
deriving DecidableEq

/-- Parameters of the create tool (`CreateJiraIssueParams` in src/main.go).
Custom-field values are `interface{}` in Go; they are modelled as opaque
strings, which suffices because the program never reads them. -/
structure CreateJiraIssueParams where
  summary : GoStr
  description : GoStr
  issueType : GoStr
  priority : GoStr
  projectKey : GoStr
  labels : List GoStr
  components : List GoStr
  customFields : List (GoStr × GoStr)
  assignee : Option JiraUser
deriving DecidableEq

/-- Parameters of the update tool (`UpdateIssueArgs` in src/main.go). -/
structure UpdateIssueArgs where
  issueKey : GoStr
  summary : GoStr
  description : GoStr
  status : GoStr
deriving DecidableEq

/-- A fetched or created issue; the program only ever reads its `Key`. -/
structure Issue where
  key : GoStr
deriving DecidableEq

/-- The issue representation submitted on create: exactly the fields the
program populates in `jira.IssueFields` (src/main.go lines 182-192). -/
structure IssueFields where
  project : GoStr
  summary : GoStr
  description : GoStr
  typeName : GoStr
  priorityName : GoStr
  labels : List GoStr
  assignee : Option JiraUser
deriving DecidableEq

/-- One directive inside a Jira update payload: `{"set": v}`. -/
inductive FieldOp where
  | set (v : GoStr)
deriving DecidableEq

/-- An outbound call to the tracker.  `doTransition` is the workflow
transition endpoint, which the program never calls. -/
inductive JiraCall where
  | getIssue (key : GoStr)
  | updateIssue (key : GoStr) (fields : List (GoStr × FieldOp))
  | findUsers (query : GoStr)
  | getSelf
  | createIssue (fields : IssueFields)
  | doTransition (key : GoStr) (transitionID : GoStr)
deriving DecidableEq

/-- The tracker oracle: the response of each outbound endpoint the program
uses.  `userGetSelf` may succeed with no user because the Go client returns
a nullable pointer that the program checks. -/
structure JiraClient where
  issueGet : GoStr → Except GoStr Issue
  issueUpdate : GoStr → List (GoStr × FieldOp) → Except GoStr Unit
  userFind : GoStr → Except GoStr (List JiraUser)
  userGetSelf : Except GoStr (Option JiraUser)
  issueCreate : IssueFields → Except GoStr Issue

/-- The adapter: configuration plus tracker client (`JiraMCPServer`). -/
structure JiraMCPServer where
  config : JiraConfig
  client : JiraClient

/-- An MCP tool result: text contents plus the `IsError` flag (which the
program never sets, leaving the Go zero value `false`). -/
structure CallToolResult where
  content : List GoStr
  isError : Bool
deriving DecidableEq

/-- What a handler invocation produces: the MCP result, the Go `error`
return value, and the trace of outbound tracker calls. -/
structure HandlerOutput where
  result : CallToolResult
  err : Option GoStr
  trace : List JiraCall
deriving DecidableEq

/-- The directive marker scanned for in descriptions. -/
def markerStr : GoStr := "assign to:".toList

/-- The project key hard-coded in `CreateJiraIssue` (src/main.go line 147). -/
def smsLit : GoStr := "SMS".toList

def summaryKey : GoStr := "summary".toList

def descriptionKey : GoStr := "description".toList

def statusKey : GoStr := "status".toList

def failedGetPre : GoStr := "Failed to get JIRA issue ".toList

def failedUpdatePre : GoStr := "Failed to update JIRA issue ".toList

def failedCreatePre : GoStr := "Failed to create JIRA issue: ".toList

def updatedPre : GoStr := "Updated JIRA issue: ".toList

def createdPre : GoStr := "Created JIRA issue: ".toList

def browseSeg : GoStr := "/browse/".toList

def colonSep : GoStr := ": ".toList

def failedLit : GoStr := "Failed".toList

/-- Error text of `findJiraUser` when the search call fails (the quote
characters of the Go format string are elided). -/
def errSearchPre : GoStr := "error searching for user ".toList

/-- Error text of `findJiraUser` when the search returns nobody (the quote
characters of the Go format string are elided). -/
def noUserPre : GoStr := "no user found for query ".toList

/-- The exact-match test of `findJiraUser` (src/main.go line 125). -/
def matchesQuery (query : GoStr) (u : JiraUser) : Bool :=
  eqFold u.emailAddress query || eqFold u.displayName query || eqFold u.name query

/-- `findJiraUser` (src/main.go lines 107-130): resolve a query string to a
user via the tracker search, preferring an exact case-insensitive match on
email, display name or account name, and falling back to the first result.
Returns the Go `(user, error)` pair as `Except GoStr (Option JiraUser)`,
together with the outbound calls issued. -/
def findJiraUser (j : JiraMCPServer) (query : GoStr) :
    Except GoStr (Option JiraUser) × List JiraCall :=
  if query = [] then (Except.ok none, [])
  else
    match j.client.userFind query with
    | Except.error e =>
      (Except.error (errSearchPre ++ query ++ colonSep ++ e), [JiraCall.findUsers query])
    | Except.ok [] =>
      (Except.error (noUserPre ++ query), [JiraCall.findUsers query])
    | Except.ok (u :: us) =>
      match (u :: us).find? (matchesQuery query) with
      | some m => (Except.ok (some m), [JiraCall.findUsers query])
      | none => (Except.ok (some u), [JiraCall.findUsers query])

/-- The directive extraction of src/main.go lines 153-155: split the
description at the first (case-sensitive) occurrence of "assign to:"; when
the separator occurs, the query is the remainder of that line, trimmed. -/
def extractDirectiveQuery (desc : GoStr) : Option GoStr :=
  match splitN2 markerStr desc with
  | _ :: after :: _ => some (trimSpace (takeLine after))
  | _ => none

/-- `&jira.User{AccountID: a}`: a user value carrying only an account id. -/
def userWithAccount (a : GoStr) : JiraUser :=
  { accountID := a, displayName := [], emailAddress := [], name := [] }

/-- The self-assignment fallback of `CreateJiraIssue`
(src/main.go lines 172-179). -/
def selfAssign (j : JiraMCPServer) : Option JiraUser × List JiraCall :=
  match j.client.userGetSelf with
  | Except.error _ => (none, [JiraCall.getSelf])
  | Except.ok none => (none, [JiraCall.getSelf])
  | Except.ok (some u) => (some (userWithAccount u.accountID), [JiraCall.getSelf])

/-- Assignee resolution of `CreateJiraIssue` (src/main.go lines 150-180):
a case-insensitively detected "assign to:" directive wins; otherwise an
explicit assignee parameter with a non-empty account id; otherwise the
authenticated caller. -/
def resolveAssignee (j : JiraMCPServer) (p : CreateJiraIssueParams) :
    Option JiraUser × List JiraCall :=
  if containsSub (toLowerG p.description) markerStr then
    match extractDirectiveQuery p.description with
    | some q =>
      let fr := findJiraUser j q
      ((match fr.1 with
        | Except.ok (some u) => some (userWithAccount u.accountID)
        | _ => none),
       fr.2)
    | none => (none, [])
  else
    match p.assignee with
    | some a =>
      if a.accountID = [] then selfAssign j
      else (some (userWithAccount a.accountID), [])
    | none => selfAssign j

/-- The defaulting of src/main.go lines 145-148: an empty project key is
replaced by the hard-coded literal "SMS". -/
def defaultedProjectKey (p : CreateJiraIssueParams) : GoStr :=
  if p.projectKey = [] then smsLit else p.projectKey

/-- The issue representation built and submitted by `CreateJiraIssue`
(src/main.go lines 182-192). -/
def createIssuePayload (j : JiraMCPServer) (p : CreateJiraIssueParams) : IssueFields :=
  { project := defaultedProjectKey p
    summary := p.summary
    description := p.description
    typeName := p.issueType
    priorityName := p.priority
    labels := p.labels
    assignee := (resolveAssignee j p).1 }

/-- The MCP result of the create handler, determined solely by the outcome
of the `Issue.Create` call (src/main.go lines 194-211). -/
def createOutcomeResult (j : JiraMCPServer) (f : IssueFields) : CallToolResult :=
  match j.client.issueCreate f with
  | Except.error e => { content := [failedCreatePre ++ e], isError := false }
  | Except.ok created =>
    { content := [createdPre ++ j.config.baseURL ++ browseSeg ++ created.key]
      isError := false }

/-- `CreateJiraIssue` (src/main.go lines 144-211). -/
def CreateJiraIssue (j : JiraMCPServer) (p : CreateJiraIssueParams) : HandlerOutput :=
  { result := createOutcomeResult j (createIssuePayload j p)
    err := none
    trace := (resolveAssignee j p).2 ++ [JiraCall.createIssue (createIssuePayload j p)] }

/-- The update-field-set built by `UpdateJiraIssue`
(src/main.go lines 64-77): a "set" directive for each of summary and
description that is non-empty in the request. -/
def buildUpdateFields (p : UpdateIssueArgs) : List (GoStr × FieldOp) :=
  (if p.summary = [] then [] else [(summaryKey, FieldOp.set p.summary)]) ++
  (if p.description = [] then [] else [(descriptionKey, FieldOp.set p.description)])

/-- `UpdateJiraIssue` (src/main.go lines 53-101). -/
def UpdateJiraIssue (j : JiraMCPServer) (p : UpdateIssueArgs) : HandlerOutput :=
  match j.client.issueGet p.issueKey with
  | Except.error e =>
    { result := { content := [failedGetPre ++ p.issueKey ++ colonSep ++ e], isError := false }
      err := none
      trace := [JiraCall.getIssue p.issueKey] }
  | Except.ok issue =>
    if 0 < (buildUpdateFields p).length then
      match j.client.issueUpdate issue.key (buildUpdateFields p) with
      | Except.error e =>
        { result := { content := [failedUpdatePre ++ p.issueKey ++ colonSep ++ e]
                      isError := false }
          err := none
          trace := [JiraCall.getIssue p.issueKey, JiraCall.updateIssue issue.key (buildUpdateFields p)] }
      | Except.ok _ =>
        { result := { content := [updatedPre ++ j.config.baseURL ++ browseSeg ++ issue.key]
                      isError := false }
          err := none
          trace := [JiraCall.getIssue p.issueKey, JiraCall.updateIssue issue.key (buildUpdateFields p)] }
    else
      { result := { content := [updatedPre ++ j.config.baseURL ++ browseSeg ++ issue.key]
                    isError := false }
        err := none
        trace := [JiraCall.getIssue p.issueKey] }

/-- `getEnv` (src/main.go lines 260-265); the environment is a total map
from variable name to value, with `[]` meaning unset. -/
def getEnvG (env : GoStr → GoStr) (key dflt : GoStr) : GoStr :=
  if env key = [] then dflt else env key

def jiraBaseURLVar : GoStr := "JIRA_BASE_URL".toList

def jiraUsernameVar : GoStr := "JIRA_USERNAME".toList

def jiraAPITokenVar : GoStr := "JIRA_API_TOKEN".toList

def jiraProjectKeyVar : GoStr := "JIRA_PROJECT_KEY".toList

def defaultBaseURL : GoStr := "https://unitedmasters.atlassian.net".toList

def httpScheme : GoStr := "http://".toList

def httpsScheme : GoStr := "https://".toList

def slashLit : GoStr := "/".toList

def baseURLRequiredMsg : GoStr := "JIRA_BASE_URL environment variable is required".toList

def usernameRequiredMsg : GoStr := "JIRA_USERNAME environment variable is required".toList

def apiTokenRequiredMsg : GoStr := "JIRA_API_TOKEN environment variable is required".toList

def projectKeyRequiredMsg : GoStr := "JIRA_PROJECT_KEY environment variable is required".toList

/-- `loadConfig` (src/main.go lines 267-297): read the four variables with
their defaults, validate non-emptiness, and normalize the base URL. -/
def loadConfig (env : GoStr → GoStr) : Except GoStr JiraConfig :=
  let cfg : JiraConfig :=
    { baseURL := getEnvG env jiraBaseURLVar defaultBaseURL
      username := getEnvG env jiraUsernameVar []
      apiToken := getEnvG env jiraAPITokenVar []
      projectKey := getEnvG env jiraProjectKeyVar smsLit }
  if cfg.baseURL = [] then Except.error baseURLRequiredMsg
  else if cfg.username = [] then Except.error usernameRequiredMsg
  else if cfg.apiToken = [] then Except.error apiTokenRequiredMsg
  else if cfg.projectKey = [] then Except.error projectKeyRequiredMsg
  else
    let normalized :=
      if isPrefixG httpScheme cfg.baseURL || isPrefixG httpsScheme cfg.baseURL then
        cfg.baseURL
      else httpsScheme ++ cfg.baseURL
    Except.ok { cfg with baseURL := trimSuffixG normalized slashLit }

/-- The queries of the user-search calls in a trace. -/
def userLookupQueries (tr : List JiraCall) : List GoStr :=
  tr.filterMap fun c =>
    match c with
    | JiraCall.findUsers q => some q
    | _ => none

/-- The issue representations submitted by create calls in a trace. -/
def submittedCreates (tr : List JiraCall) : List IssueFields :=
  tr.filterMap fun c =>
    match c with
    | JiraCall.createIssue f => some f
    | _ => none

/-- The field sets submitted by update calls in a trace. -/
def updatePayloads (tr : List JiraCall) : List (List (GoStr × FieldOp)) :=
  tr.filterMap fun c =>
    match c with
    | JiraCall.updateIssue _ fs => some fs
    | _ => none

/-- Whether a trace contains a workflow-transition call. -/
def hasTransitionCall (tr : List JiraCall) : Bool :=
  tr.any fun c =>
    match c with
    | JiraCall.doTransition _ _ => true
    | _ => false

/-- Whether a trace contains a self-identity call. -/
def hasGetSelfCall (tr : List JiraCall) : Bool :=
  tr.any fun c =>
    match c with
    | JiraCall.getSelf => true
    | _ => false

/-- The (single) text content of a handler result. -/
def resultText (o : HandlerOutput) : GoStr := o.result.content.headD []

/-! Concrete fixtures used by witnesses and counterexamples. -/

def uSelf : JiraUser :=
  { accountID := "acct-self".toList
    displayName := "Self User".toList
    emailAddress := "self@example.test".toList
    name := "self".toList }

def uAlice : JiraUser :=
  { accountID := "acct-alice".toList
    displayName := "Alice A".toList
    emailAddress := "alice@example.test".toList
    name := "alicea".toList }

def uBob : JiraUser :=
  { accountID := "acct-bob".toList
    displayName := "Bob".toList
    emailAddress := "bob@example.test".toList
    name := "robert".toList }

def cfgStd : JiraConfig :=
  { baseURL := "https://jira.test".toList
    username := "u".toList
    apiToken := "t".toList
    projectKey := "SMS".toList }

def cfgABC : JiraConfig :=
  { baseURL := defaultBaseURL
    username := "u".toList
    apiToken := "t".toList
    projectKey := "ABC".toList }

/-- An environment in which `JIRA_PROJECT_KEY` is set to "ABC". -/
def envABC : GoStr → GoStr := fun k =>
  if k = jiraUsernameVar then "u".toList
  else if k = jiraAPITokenVar then "t".toList
  else if k = jiraProjectKeyVar then "ABC".toList
  else []

def clientOk : JiraClient :=
  { issueGet := fun k => Except.ok { key := k }
    issueUpdate := fun _ _ => Except.ok ()
    userFind := fun _ => Except.ok []
    userGetSelf := Except.ok (some uSelf)
    issueCreate := fun _ => Except.ok { key := "SMS-9".toList } }

def clientFindBoom : JiraClient :=
  { clientOk with userFind := fun _ => Except.error "boom".toList }

def clientCreateKaput : JiraClient :=
  { clientOk with issueCreate := fun _ => Except.error "kaput".toList }

def clientGetBoom : JiraClient :=
  { clientOk with issueGet := fun _ => Except.error "boom".toList }

def clientUpdateBoom : JiraClient :=
  { clientOk with issueUpdate := fun _ _ => Except.error "boom".toList }

def clientFindBob : JiraClient :=
  { clientOk with userFind := fun _ => Except.ok [uAlice, uBob] }

def jOk : JiraMCPServer := { config := cfgStd, client := clientOk }

def jABC : JiraMCPServer := { config := cfgABC, client := clientOk }

def jFindBoom : JiraMCPServer := { config := cfgStd, client := clientFindBoom }

def jCreateKaput : JiraMCPServer := { config := cfgStd, client := clientCreateKaput }

def jGetBoom : JiraMCPServer := { config := cfgStd, client := clientGetBoom }

def jUpdateBoom : JiraMCPServer := { config := cfgStd, client := clientUpdateBoom }

def jFindBob : JiraMCPServer := { config := cfgStd, client := clientFindBob }

/-- A create request with an empty project key and no directive. -/
def pEmptyProj : CreateJiraIssueParams :=
  { summary := "Bug".toList
    description := "crash on save".toList
    issueType := "Bug".toList
    priority := "High".toList
    projectKey := []
    labels := []
    components := []
    customFields := []
    assignee := none }

/-- A create request whose directive marker appears only capitalised. -/
def pCapMarker : CreateJiraIssueParams :=
  { pEmptyProj with description := "Assign to: alice".toList }

/-- Capitalised marker together with an explicit assignee parameter. -/
def pCapExplicit : CreateJiraIssueParams :=
  { pCapMarker with assignee := some (userWithAccount "acct-explicit".toList) }

/-- A lowercase directive, plus an explicit assignee that must be ignored. -/
def pLowDir : CreateJiraIssueParams :=
  { pEmptyProj with
    description := "please assign to: alice@example.test\nthanks".toList
    assignee := some (userWithAccount "acct-explicit".toList) }

/-- A lowercase directive naming a user the search will not find. -/
def pGhost : CreateJiraIssueParams :=
  { pEmptyProj with description := "assign to: ghost".toList }

/-- A lowercase directive naming bob. -/
def pBobDir : CreateJiraIssueParams :=
  { pEmptyProj with description := "assign to: bob".toList }

/-- A lowercase directive naming alice (used with a failing user search). -/
def pAliceDir : CreateJiraIssueParams :=
  { pEmptyProj with description := "assign to: alice".toList }

/-- Create requests differing only in components and custom fields. -/
def pCompA : CreateJiraIssueParams :=
  { pEmptyProj with components := ["ui".toList], customFields := [("cf1".toList, "x".toList)] }

def pCompB : CreateJiraIssueParams :=
  { pEmptyProj with components := ["api".toList], customFields := [] }

/-- An update request carrying only a status change. -/
def pStatusOnly : UpdateIssueArgs :=
  { issueKey := "SMS-12".toList, summary := [], description := [], status := "Done".toList }

/-- An update request with a new summary and a status. -/
def pSummaryStatus : UpdateIssueArgs :=
  { issueKey := "SMS-12".toList
    summary := "New summary".toList
    description := []
    status := "Done".toList }

/-- An update request with a new summary only. -/
def pSummaryOnly : UpdateIssueArgs :=
  { issueKey := "SMS-12".toList, summary := "New summary".toList, description := [], status := [] }

/-! Helper lemmas about the string model. -/

theorem containsSub_empty (s : GoStr) : containsSub s [] = true := by
  cases s <;> simp [containsSub, isPrefixG, List.isEmpty]

theorem isPrefixG_self_append (m r : GoStr) : isPrefixG m (m ++ r) = true := by
  induction m with
  | nil => simp [isPrefixG]
  | cons a as ih => simp [isPrefixG, ih]

theorem containsSub_middle (l m r : GoStr) : containsSub (l ++ m ++ r) m = true := by
  induction l with
  | nil =>
    cases m with
    | nil => simpa using containsSub_empty r
    | cons c cs =>
      simp only [List.nil_append, List.cons_append, containsSub]
      have h := isPrefixG_self_append (c :: cs) r
      simp only [List.cons_append] at h
      simp [h]
  | cons a as ih =>
    rw [List.append_assoc] at ih
    simp only [List.cons_append, containsSub]
    simp [ih]

theorem containsSub_right (l m : GoStr) : containsSub (l ++ m) m = true := by
  have h := containsSub_middle l m []
  simpa using h

theorem isPrefixG_map (f : Char → Char) :
    ∀ p s : GoStr, isPrefixG p s = true → isPrefixG (p.map f) (s.map f) = true := by
  intro p
  induction p with
  | nil => intro s _; simp [isPrefixG]
  | cons a as ih =>
    intro s h
    cases s with
    | nil => simp [isPrefixG] at h
    | cons b bs =>
      simp only [isPrefixG, Bool.and_eq_true, decide_eq_true_eq] at h
      simp only [List.map_cons, isPrefixG, Bool.and_eq_true, decide_eq_true_eq]
      exact ⟨by rw [h.1], ih bs h.2⟩

theorem containsSub_map (f : Char → Char) :
    ∀ s p : GoStr, containsSub s p = true → containsSub (s.map f) (p.map f) = true := by
  intro s
  induction s with
  | nil =>
    intro p h
    simp only [containsSub, List.isEmpty_iff] at h
    subst h
    simp [containsSub]
  | cons c rest ih =>
    intro p h
    simp only [containsSub, Bool.or_eq_true] at h
    simp only [List.map_cons, containsSub, Bool.or_eq_true]
    rcases h with h | h
    · left
      have := isPrefixG_map f p (c :: rest) h
      simpa using this
    · right
      exact ih p h

theorem toLowerG_marker : toLowerG markerStr = markerStr := by decide

theorem splitN2_eq_single (m : GoStr) :
    ∀ s : GoStr, containsSub s m = false → splitN2 m s = [s] := by
  intro s
  induction s with
  | nil => intro _; rfl
  | cons c rest ih =>
    intro h
    simp only [containsSub, Bool.or_eq_false_iff] at h
    simp [splitN2, h.1, ih h.2]

theorem find_first_split {α : Type} (p : α → Bool) :
    ∀ (l : List α) (a : α), l.find? p = some a →
      ∃ l1 l2, l = l1 ++ a :: l2 ∧ p a = true ∧ ∀ x ∈ l1, p x = false := by
  intro l
  induction l with
  | nil => intro a h; simp [List.find?] at h
  | cons b bs ih =>
    intro a h
    by_cases hb : p b = true
    · rw [List.find?_cons_of_pos _ hb] at h
      obtain rfl : b = a := by injection h
      exact ⟨[], bs, rfl, hb, by simp⟩
    · rw [List.find?_cons_of_neg _ hb] at h
      obtain ⟨l1, l2, heq, hpa, hall⟩ := ih a h
      refine ⟨b :: l1, l2, by simp [heq], hpa, ?_⟩
      intro x hx
      rcases List.mem_cons.mp hx with h1 | h1
      · subst h1
        exact Bool.eq_false_iff.mpr hb
      · exact hall x h1

/-! Helper lemmas about the handlers. -/

theorem findJiraUser_trace_cases (j : JiraMCPServer) (q : GoStr) :
    (findJiraUser j q).2 = [] ∨ (findJiraUser j q).2 = [JiraCall.findUsers q] := by
  unfold findJiraUser
  split
  · exact Or.inl rfl
  · refine Or.inr ?_
    split
    · rfl
    · rfl
    · split <;> rfl

theorem findJiraUser_trace_nonempty (j : JiraMCPServer) (q : GoStr) (h : q ≠ []) :
    (findJiraUser j q).2 = [JiraCall.findUsers q] := by
  unfold findJiraUser
  rw [if_neg h]
  split
  · rfl
  · rfl
  · split <;> rfl

theorem selfAssign_trace (j : JiraMCPServer) : (selfAssign j).2 = [JiraCall.getSelf] := by
  unfold selfAssign
  split <;> rfl

theorem resolveAssignee_trace_cases (j : JiraMCPServer) (p : CreateJiraIssueParams) :
    (resolveAssignee j p).2 = [] ∨
    (∃ q, (resolveAssignee j p).2 = [JiraCall.findUsers q]) ∨
    (resolveAssignee j p).2 = [JiraCall.getSelf] := by
  unfold resolveAssignee
  split
  · split
    · rename_i q _
      rcases findJiraUser_trace_cases j q with h | h
      · exact Or.inl (by simpa using h)
      · exact Or.inr (Or.inl ⟨q, by simpa using h⟩)
    · exact Or.inl rfl
  · split
    · split
      · rw [selfAssign_trace]
        exact Or.inr (Or.inr rfl)
      · exact Or.inl rfl
    · rw [selfAssign_trace]
      exact Or.inr (Or.inr rfl)

theorem CreateJiraIssue_trace_eq (j : JiraMCPServer) (p : CreateJiraIssueParams) :
    (CreateJiraIssue j p).trace =
      (resolveAssignee j p).2 ++ [JiraCall.createIssue (createIssuePayload j p)] := rfl

theorem CreateJiraIssue_err_none (j : JiraMCPServer) (p : CreateJiraIssueParams) :
    (CreateJiraIssue j p).err = none := rfl

theorem CreateJiraIssue_isError_false (j : JiraMCPServer) (p : CreateJiraIssueParams) :
    (CreateJiraIssue j p).result.isError = false := by
  show (createOutcomeResult j (createIssuePayload j p)).isError = false
  unfold createOutcomeResult
  split <;> rfl

theorem UpdateJiraIssue_err_none (j : JiraMCPServer) (p : UpdateIssueArgs) :
    (UpdateJiraIssue j p).err = none := by
  unfold UpdateJiraIssue
  split
  · rfl
  · split
    · split <;> rfl
    · rfl

theorem UpdateJiraIssue_isError_false (j : JiraMCPServer) (p : UpdateIssueArgs) :
    (UpdateJiraIssue j p).result.isError = false := by
  unfold UpdateJiraIssue
  split
  · rfl
  · split
    · split <;> rfl
    · rfl

theorem submittedCreates_append (t1 t2 : List JiraCall) :
    submittedCreates (t1 ++ t2) = submittedCreates t1 ++ submittedCreates t2 := by
  simp [submittedCreates]

theorem userLookupQueries_append (t1 t2 : List JiraCall) :
    userLookupQueries (t1 ++ t2) = userLookupQueries t1 ++ userLookupQueries t2 := by
  simp [userLookupQueries]

theorem submittedCreates_resolve (j : JiraMCPServer) (p : CreateJiraIssueParams) :
    submittedCreates (resolveAssignee j p).2 = [] := by
  rcases resolveAssignee_trace_cases j p with h | ⟨q, h⟩ | h <;>
    simp [h, submittedCreates]

theorem createTrace_creates (j : JiraMCPServer) (p : CreateJiraIssueParams) :
    submittedCreates (CreateJiraIssue j p).trace = [createIssuePayload j p] := by
  rw [CreateJiraIssue_trace_eq, submittedCreates_append, submittedCreates_resolve]
  simp [submittedCreates]

theorem resolveAssignee_dir (j : JiraMCPServer) (p : CreateJiraIssueParams) (q : GoStr)
    (h1 : containsSub (toLowerG p.description) markerStr = true)
    (h2 : extractDirectiveQuery p.description = some q) :
    resolveAssignee j p =
      ((match (findJiraUser j q).1 with
        | Except.ok (some u) => some (userWithAccount u.accountID)
        | _ => none),
       (findJiraUser j q).2) := by
  unfold resolveAssignee
  rw [if_pos h1, h2]

theorem resolveAssignee_nodir (j : JiraMCPServer) (p : CreateJiraIssueParams)
    (h1 : containsSub (toLowerG p.description) markerStr = true)
    (h2 : extractDirectiveQuery p.description = none) :
    resolveAssignee j p = (none, []) := by
  unfold resolveAssignee
  rw [if_pos h1, h2]

theorem resolveAssignee_noMarker_self (j : JiraMCPServer) (p : CreateJiraIssueParams)
    (h1 : containsSub (toLowerG p.description) markerStr = false)
    (h2 : ∀ a, p.assignee = some a → a.accountID = []) :
    resolveAssignee j p = selfAssign j := by
  unfold resolveAssignee
  rw [if_neg (by simp [h1])]
  cases hpa : p.assignee with
  | none => rfl
  | some a => simp [h2 a hpa]

theorem findJiraUser_emptyResults (j : JiraMCPServer) (q : GoStr) (hq : q ≠ [])
    (hf : j.client.userFind q = Except.ok []) :
    findJiraUser j q = (Except.error (noUserPre ++ q), [JiraCall.findUsers q]) := by
  unfold findJiraUser
  rw [if_neg hq, hf]

theorem selfAssign_some (j : JiraMCPServer) (u : JiraUser)
    (h : j.client.userGetSelf = Except.ok (some u)) :
    selfAssign j = (some (userWithAccount u.accountID), [JiraCall.getSelf]) := by
  unfold selfAssign
  rw [h]

theorem UpdateJiraIssue_fetchFail (j : JiraMCPServer) (p : UpdateIssueArgs) (e : GoStr)
    (h : j.client.issueGet p.issueKey = Except.error e) :
    UpdateJiraIssue j p =
      { result := { content := [failedGetPre ++ p.issueKey ++ colonSep ++ e]
                    isError := false }
        err := none
        trace := [JiraCall.getIssue p.issueKey] } := by
  unfold UpdateJiraIssue
  rw [h]

theorem UpdateJiraIssue_updateOk (j : JiraMCPServer) (p : UpdateIssueArgs) (iss : Issue)
    (hget : j.client.issueGet p.issueKey = Except.ok iss)
    (hlen : 0 < (buildUpdateFields p).length)
    (hupd : j.client.issueUpdate iss.key (buildUpdateFields p) = Except.ok ()) :
    UpdateJiraIssue j p =
      { result := { content := [updatedPre ++ j.config.baseURL ++ browseSeg ++ iss.key]
                    isError := false }
        err := none
        trace := [JiraCall.getIssue p.issueKey,
                  JiraCall.updateIssue iss.key (buildUpdateFields p)] } := by
  unfold UpdateJiraIssue
  rw [hget]
  dsimp only
  rw [if_pos hlen, hupd]

theorem UpdateJiraIssue_updateFail (j : JiraMCPServer) (p : UpdateIssueArgs) (iss : Issue)
    (e : GoStr)
    (hget : j.client.issueGet p.issueKey = Except.ok iss)
    (hlen : 0 < (buildUpdateFields p).length)
    (hupd : j.client.issueUpdate iss.key (buildUpdateFields p) = Except.error e) :
    UpdateJiraIssue j p =
      { result := { content := [failedUpdatePre ++ p.issueKey ++ colonSep ++ e]
                    isError := false }
        err := none
        trace := [JiraCall.getIssue p.issueKey,
                  JiraCall.updateIssue iss.key (buildUpdateFields p)] } := by
  unfold UpdateJiraIssue
  rw [hget]
  dsimp only
  rw [if_pos hlen, hupd]

theorem UpdateJiraIssue_noFields (j : JiraMCPServer) (p : UpdateIssueArgs) (iss : Issue)
    (hget : j.client.issueGet p.issueKey = Except.ok iss)
    (hlen : ¬ 0 < (buildUpdateFields p).length) :
    UpdateJiraIssue j p =
      { result := { content := [updatedPre ++ j.config.baseURL ++ browseSeg ++ iss.key]
                    isError := false }
        err := none
        trace := [JiraCall.getIssue p.issueKey] } := by
  unfold UpdateJiraIssue
  rw [hget]
  dsimp only
  rw [if_neg hlen]

/-- C1 (counterexample): with `JIRA_PROJECT_KEY=ABC` loaded into the
configuration, a create request with an empty project key is submitted
under the hard-coded literal "SMS" and not under the configured project
key "ABC": the handler never consults the configuration value. -/
theorem c1Cex_configuredKeyIgnored :
    loadConfig envABC = Except.ok cfgABC ∧
    cfgABC.projectKey = "ABC".toList ∧
    pEmptyProj.projectKey = [] ∧
    submittedCreates (CreateJiraIssue jABC pEmptyProj).trace =
      [createIssuePayload jABC pEmptyProj] ∧
    (createIssuePayload jABC pEmptyProj).project ≠ cfgABC.projectKey :=
  ⟨by rfl, by decide, by decide, by decide, by decide⟩

/-- C1 (amended, proved): for every create request whose project key is
absent or empty, the issue submitted to the tracker carries a project key
equal to the fixed literal "SMS" hard-coded in the handler; the
configuration's project-key value is not consulted. -/
theorem c1Thm_emptyProjectKeyDefaultsToSMS (j : JiraMCPServer)
    (p : CreateJiraIssueParams) (h : p.projectKey = []) :
    submittedCreates (CreateJiraIssue j p).trace = [createIssuePayload j p] ∧
    (createIssuePayload j p).project = smsLit := by
  refine ⟨createTrace_creates j p, ?_⟩
  simp [createIssuePayload, defaultedProjectKey, h]

/-- C1 (witness): the amended claim evaluated at a concrete request. -/
theorem c1Wit :
    submittedCreates (CreateJiraIssue jOk pEmptyProj).trace =
      [createIssuePayload jOk pEmptyProj] ∧
    (createIssuePayload jOk pEmptyProj).project = smsLit :=
  c1Thm_emptyProjectKeyDefaultsToSMS jOk pEmptyProj (by decide)

/-- C2 (counterexample): the description "Assign to: alice" contains the
marker in a non-lowercase letter form followed by the query "alice" on the
same line, yet the handler performs no user lookup at all, so the lookup
query does not equal "alice". -/
theorem c2Cex_uppercaseMarkerNoLookup :
    containsSub (toLowerG pCapMarker.description) markerStr = true ∧
    userLookupQueries (CreateJiraIssue jOk pCapMarker).trace = [] ∧
    userLookupQueries (CreateJiraIssue jOk pCapMarker).trace ≠ ["alice".toList] :=
  ⟨by decide, by decide, by decide⟩

/-- C2 (amended, proved): for every create request whose description
contains the marker "assign to:" in its exact lowercase form, with a
non-empty query after the first lowercase occurrence (up to the next line
break, whitespace-trimmed), the assignee-resolution user lookup uses
exactly that query, regardless of any explicit assignee parameter. -/
theorem c2Thm_lowercaseDirectiveDeterminesLookup (j : JiraMCPServer)
    (p : CreateJiraIssueParams) (q : GoStr)
    (h1 : containsSub p.description markerStr = true)
    (h2 : extractDirectiveQuery p.description = some q)
    (h3 : q ≠ []) :
    userLookupQueries (CreateJiraIssue j p).trace = [q] := by
  have hlow : containsSub (toLowerG p.description) markerStr = true := by
    have hm := containsSub_map Char.toLower p.description markerStr h1
    rw [show markerStr.map Char.toLower = markerStr from toLowerG_marker] at hm
    exact hm
  have hra := resolveAssignee_dir j p q hlow h2
  have ht : (resolveAssignee j p).2 = (findJiraUser j q).2 := by rw [hra]
  rw [CreateJiraIssue_trace_eq, userLookupQueries_append, ht,
    findJiraUser_trace_nonempty j q h3]
  simp [userLookupQueries]

/-- C2 (witness): a lowercase directive with an explicit assignee
parameter present; the lookup still uses the directive query. -/
theorem c2Wit :
    userLookupQueries (CreateJiraIssue jOk pLowDir).trace =
      ["alice@example.test".toList] :=
  c2Thm_lowercaseDirectiveDeterminesLookup jOk pLowDir "alice@example.test".toList
    (by decide) (by decide) (by decide)

/-- C10 (confirmed): when the marker appears only in a non-lowercase form,
the case-insensitive detection selects the directive branch, the
case-sensitive split yields no query, and the issue is submitted with no
assignee; neither the user search, nor the self-identity call, nor the
explicit assignee parameter is consulted. -/
theorem c10Thm_mixedCaseMarkerLeavesUnassigned (j : JiraMCPServer)
    (p : CreateJiraIssueParams)
    (h1 : containsSub (toLowerG p.description) markerStr = true)
    (h2 : containsSub p.description markerStr = false) :
    (createIssuePayload j p).assignee = none ∧
    submittedCreates (CreateJiraIssue j p).trace = [createIssuePayload j p] ∧
    userLookupQueries (CreateJiraIssue j p).trace = [] ∧
    hasGetSelfCall (CreateJiraIssue j p).trace = false := by
  have hx : extractDirectiveQuery p.description = none := by
    unfold extractDirectiveQuery
    rw [splitN2_eq_single markerStr p.description h2]
  have hra := resolveAssignee_nodir j p h1 hx
  refine ⟨?_, createTrace_creates j p, ?_, ?_⟩
  · show (resolveAssignee j p).1 = none
    rw [hra]
  · have ht : (resolveAssignee j p).2 = [] := by rw [hra]
    rw [CreateJiraIssue_trace_eq, userLookupQueries_append, ht]
    simp [userLookupQueries]
  · have ht : (resolveAssignee j p).2 = [] := by rw [hra]
    rw [CreateJiraIssue_trace_eq, ht]
    simp [hasGetSelfCall]

/-- C10 (witness): a capitalised marker together with an explicit assignee
parameter carrying a non-empty account id; the issue is still submitted
unassigned. -/
theorem c10Wit :
    (createIssuePayload jOk pCapExplicit).assignee = none ∧
    submittedCreates (CreateJiraIssue jOk pCapExplicit).trace =
      [createIssuePayload jOk pCapExplicit] ∧
    userLookupQueries (CreateJiraIssue jOk pCapExplicit).trace = [] ∧
    hasGetSelfCall (CreateJiraIssue jOk pCapExplicit).trace = false :=
  c10Thm_mixedCaseMarkerLeavesUnassigned jOk pCapExplicit (by decide) (by decide)

theorem containsSub_left (m r : GoStr) : containsSub (m ++ r) m = true := by
  have h := containsSub_middle [] m r
  simpa using h

theorem buildUpdateFields_noStatus (p : UpdateIssueArgs) :
    ∀ entry ∈ buildUpdateFields p, entry.1 ≠ statusKey := by
  intro entry hentry
  unfold buildUpdateFields at hentry
  rcases List.mem_append.mp hentry with h | h
  · by_cases hs : p.summary = []
    · rw [if_pos hs] at h
      simp at h
    · rw [if_neg hs] at h
      have he : entry = (summaryKey, FieldOp.set p.summary) := by simpa using h
      rw [he]
      show summaryKey ≠ statusKey
      decide
  · by_cases hs : p.description = []
    · rw [if_pos hs] at h
      simp at h
    · rw [if_neg hs] at h
      have he : entry = (descriptionKey, FieldOp.set p.description) := by simpa using h
      rw [he]
      show descriptionKey ≠ statusKey
      decide

/-- C3 (counterexample): a create request whose assignee lookup fails
("boom") while the issue create succeeds: the lookup failure is an
outbound tracker failure, but the returned text is the ordinary success
message and does not describe it. -/
theorem c3Cex_lookupFailureInvisible :
    jFindBoom.client.userFind "alice".toList = Except.error "boom".toList ∧
    userLookupQueries (CreateJiraIssue jFindBoom pAliceDir).trace = ["alice".toList] ∧
    (CreateJiraIssue jFindBoom pAliceDir).err = none ∧
    (CreateJiraIssue jFindBoom pAliceDir).result.isError = false ∧
    containsSub (resultText (CreateJiraIssue jFindBoom pAliceDir)) "boom".toList = false ∧
    resultText (CreateJiraIssue jFindBoom pAliceDir) =
      createdPre ++ cfgStd.baseURL ++ browseSeg ++ "SMS-9".toList :=
  ⟨by rfl, by decide, by rfl, by decide, by decide, by decide⟩

/-- C3 (amended, proved): for every invocation of create or update, the
Go error result is nil and the ToolResult is a non-error envelope; a
failure of the issue fetch, of the submitted field update, or of the issue
create is described in the result text, while a user-lookup failure is
only logged and not surfaced. -/
theorem c3Thm_failuresDowngraded (j : JiraMCPServer) (pU : UpdateIssueArgs)
    (pC : CreateJiraIssueParams) :
    (UpdateJiraIssue j pU).err = none ∧
    (UpdateJiraIssue j pU).result.isError = false ∧
    (CreateJiraIssue j pC).err = none ∧
    (CreateJiraIssue j pC).result.isError = false ∧
    (∀ e, j.client.issueGet pU.issueKey = Except.error e →
      containsSub (resultText (UpdateJiraIssue j pU)) e = true) ∧
    (∀ iss e, j.client.issueGet pU.issueKey = Except.ok iss →
      0 < (buildUpdateFields pU).length →
      j.client.issueUpdate iss.key (buildUpdateFields pU) = Except.error e →
      containsSub (resultText (UpdateJiraIssue j pU)) e = true) ∧
    (∀ e, j.client.issueCreate (createIssuePayload j pC) = Except.error e →
      containsSub (resultText (CreateJiraIssue j pC)) e = true) := by
  refine ⟨UpdateJiraIssue_err_none j pU, UpdateJiraIssue_isError_false j pU,
    CreateJiraIssue_err_none j pC, CreateJiraIssue_isError_false j pC, ?_, ?_, ?_⟩
  · intro e he
    rw [UpdateJiraIssue_fetchFail j pU e he]
    show containsSub (failedGetPre ++ pU.issueKey ++ colonSep ++ e) e = true
    exact containsSub_right _ e
  · intro iss e hget hlen hupd
    rw [UpdateJiraIssue_updateFail j pU iss e hget hlen hupd]
    show containsSub (failedUpdatePre ++ pU.issueKey ++ colonSep ++ e) e = true
    exact containsSub_right _ e
  · intro e he
    have hres : resultText (CreateJiraIssue j pC) = failedCreatePre ++ e := by
      show (createOutcomeResult j (createIssuePayload j pC)).content.headD [] = _
      unfold createOutcomeResult
      rw [he]
      rfl
    rw [hres]
    exact containsSub_right _ e

/-- C3 (witness): the amended claim evaluated at concrete fetch, update
and create failures. -/
theorem c3Wit :
    containsSub (resultText (UpdateJiraIssue jGetBoom pSummaryOnly)) "boom".toList = true ∧
    containsSub (resultText (UpdateJiraIssue jUpdateBoom pSummaryOnly)) "boom".toList = true ∧
    containsSub (resultText (CreateJiraIssue jCreateKaput pEmptyProj)) "kaput".toList = true ∧
    (UpdateJiraIssue jGetBoom pSummaryOnly).err = none ∧
    (CreateJiraIssue jCreateKaput pEmptyProj).result.isError = false :=
  ⟨(c3Thm_failuresDowngraded jGetBoom pSummaryOnly pEmptyProj).2.2.2.2.1
      "boom".toList (by rfl),
   (c3Thm_failuresDowngraded jUpdateBoom pSummaryOnly pEmptyProj).2.2.2.2.2.1
      { key := "SMS-12".toList } "boom".toList (by rfl) (by decide) (by rfl),
   (c3Thm_failuresDowngraded jCreateKaput pSummaryOnly pEmptyProj).2.2.2.2.2.2
      "kaput".toList (by rfl),
   (c3Thm_failuresDowngraded jGetBoom pSummaryOnly pEmptyProj).1,
   (c3Thm_failuresDowngraded jCreateKaput pSummaryOnly pEmptyProj).2.2.2.1⟩

/-- C4 (counterexample): an update request supplying a status whose fetch
succeeds but whose submitted field update fails: the returned text is the
failure message, not a success ToolResult. -/
theorem c4Cex_failedUpdateNotSuccess :
    pSummaryStatus.status ≠ [] ∧
    jUpdateBoom.client.issueGet pSummaryStatus.issueKey =
      Except.ok { key := "SMS-12".toList } ∧
    resultText (UpdateJiraIssue jUpdateBoom pSummaryStatus) =
      failedUpdatePre ++ "SMS-12".toList ++ colonSep ++ "boom".toList ∧
    resultText (UpdateJiraIssue jUpdateBoom pSummaryStatus) ≠
      updatedPre ++ cfgStd.baseURL ++ browseSeg ++ "SMS-12".toList :=
  ⟨by decide, by rfl, by decide, by decide⟩

/-- C4 (amended, proved): for every update request that supplies a status,
whose issue fetch succeeds, and whose submitted field update (if one is
issued) succeeds, the operation returns the success text; and the
submitted update-field-set never contains a status entry and no
workflow-transition call is made, so the status is never applied. -/
theorem c4Thm_statusAcceptedButNeverApplied (j : JiraMCPServer) (p : UpdateIssueArgs)
    (iss : Issue)
    (h0 : p.status ≠ [])
    (hget : j.client.issueGet p.issueKey = Except.ok iss)
    (hupd : 0 < (buildUpdateFields p).length →
      j.client.issueUpdate iss.key (buildUpdateFields p) = Except.ok ()) :
    resultText (UpdateJiraIssue j p) =
      updatedPre ++ j.config.baseURL ++ browseSeg ++ iss.key ∧
    (∀ entry ∈ buildUpdateFields p, entry.1 ≠ statusKey) ∧
    hasTransitionCall (UpdateJiraIssue j p).trace = false ∧
    (∀ fs ∈ updatePayloads (UpdateJiraIssue j p).trace,
      ∀ entry ∈ fs, entry.1 ≠ statusKey) := by
  by_cases hlen : 0 < (buildUpdateFields p).length
  · rw [UpdateJiraIssue_updateOk j p iss hget hlen (hupd hlen)]
    refine ⟨rfl, buildUpdateFields_noStatus p, by rfl, ?_⟩
    intro fs hfs
    have hup : updatePayloads [JiraCall.getIssue p.issueKey,
        JiraCall.updateIssue iss.key (buildUpdateFields p)] = [buildUpdateFields p] := rfl
    rw [hup] at hfs
    rw [List.mem_singleton.mp hfs]
    exact buildUpdateFields_noStatus p
  · rw [UpdateJiraIssue_noFields j p iss hget hlen]
    refine ⟨rfl, buildUpdateFields_noStatus p, by rfl, ?_⟩
    intro fs hfs
    have hup : updatePayloads [JiraCall.getIssue p.issueKey] = [] := rfl
    rw [hup] at hfs
    exact absurd hfs (List.not_mem_nil fs)

/-- C4 (witness): the spec scenario — an update carrying only
status "Done" against a healthy tracker returns success with no status
applied. -/
theorem c4Wit :
    resultText (UpdateJiraIssue jOk pStatusOnly) =
      updatedPre ++ cfgStd.baseURL ++ browseSeg ++ "SMS-12".toList ∧
    (∀ entry ∈ buildUpdateFields pStatusOnly, entry.1 ≠ statusKey) ∧
    hasTransitionCall (UpdateJiraIssue jOk pStatusOnly).trace = false ∧
    (∀ fs ∈ updatePayloads (UpdateJiraIssue jOk pStatusOnly).trace,
      ∀ entry ∈ fs, entry.1 ≠ statusKey) :=
  c4Thm_statusAcceptedButNeverApplied jOk pStatusOnly { key := "SMS-12".toList }
    (by decide) (by rfl) (fun h => absurd h (by decide))

/-- C5 (confirmed): for a non-empty query whose search returns a non-empty
candidate list, the lookup returns the first candidate matching the query
case-insensitively on email, display name or account name when one exists,
and the first returned candidate otherwise. -/
theorem c5Thm_firstCaseInsensitiveMatchWins (j : JiraMCPServer) (q : GoStr)
    (users : List JiraUser) (u0 : JiraUser) (rest : List JiraUser)
    (hq : q ≠ [])
    (hf : j.client.userFind q = Except.ok users)
    (hus : users = u0 :: rest) :
    ((∃ x ∈ users, matchesQuery q x = true) →
      ∃ l1 u l2, users = l1 ++ u :: l2 ∧ matchesQuery q u = true ∧
        (∀ x ∈ l1, matchesQuery q x = false) ∧
        (findJiraUser j q).1 = Except.ok (some u)) ∧
    ((∀ x ∈ users, matchesQuery q x = false) →
      (findJiraUser j q).1 = Except.ok (some u0)) := by
  subst hus
  constructor
  · intro hex
    cases hfind : (u0 :: rest).find? (matchesQuery q) with
    | none =>
      exfalso
      obtain ⟨x, hx, hmx⟩ := hex
      exact absurd hmx (List.find?_eq_none.mp hfind x hx)
    | some m =>
      obtain ⟨l1, l2, heq, hpm, hall⟩ :=
        find_first_split (matchesQuery q) (u0 :: rest) m hfind
      refine ⟨l1, m, l2, heq, hpm, hall, ?_⟩
      unfold findJiraUser
      rw [if_neg hq, hf]
      dsimp only
      rw [hfind]
  · intro hall
    have hnone : (u0 :: rest).find? (matchesQuery q) = none :=
      List.find?_eq_none.mpr (fun x hx => by rw [hall x hx]; simp)
    unfold findJiraUser
    rw [if_neg hq, hf]
    dsimp only
    rw [hnone]

/-- C5 (witness): the claim evaluated at the search result
`[uAlice, uBob]` for the query "bob", which only uBob matches (on display
name, case-insensitively) even though uBob is not first. -/
theorem c5Wit :
    ((∃ x ∈ [uAlice, uBob], matchesQuery "bob".toList x = true) →
      ∃ l1 u l2, [uAlice, uBob] = l1 ++ u :: l2 ∧
        matchesQuery "bob".toList u = true ∧
        (∀ x ∈ l1, matchesQuery "bob".toList x = false) ∧
        (findJiraUser jFindBob "bob".toList).1 = Except.ok (some u)) ∧
    ((∀ x ∈ [uAlice, uBob], matchesQuery "bob".toList x = false) →
      (findJiraUser jFindBob "bob".toList).1 = Except.ok (some uAlice)) :=
  c5Thm_firstCaseInsensitiveMatchWins jFindBob "bob".toList [uAlice, uBob]
    uAlice [uBob] (by decide) (by rfl) (by rfl)

/-- C6 (confirmed): a directive lookup with a non-empty query whose search
returns zero results makes `findJiraUser` fail; the create handler still
submits the issue with no assignee, its Go error is nil, and the result is
exactly what the create outcome alone dictates — the lookup failure is not
surfaced. -/
theorem c6Thm_unfoundUserCreatesUnassigned (j : JiraMCPServer)
    (p : CreateJiraIssueParams) (q : GoStr)
    (h1 : containsSub (toLowerG p.description) markerStr = true)
    (h2 : extractDirectiveQuery p.description = some q)
    (h3 : q ≠ [])
    (h4 : j.client.userFind q = Except.ok []) :
    (findJiraUser j q).1 = Except.error (noUserPre ++ q) ∧
    (CreateJiraIssue j p).err = none ∧
    submittedCreates (CreateJiraIssue j p).trace = [createIssuePayload j p] ∧
    (createIssuePayload j p).assignee = none ∧
    (CreateJiraIssue j p).result = createOutcomeResult j (createIssuePayload j p) := by
  have hfj := findJiraUser_emptyResults j q h3 h4
  have hra := resolveAssignee_dir j p q h1 h2
  refine ⟨by rw [hfj], CreateJiraIssue_err_none j p, createTrace_creates j p, ?_, rfl⟩
  show (resolveAssignee j p).1 = none
  rw [hra]
  dsimp only
  rw [hfj]

/-- C6 (witness): the claim at the directive "assign to: ghost" against a
search that finds nobody. -/
theorem c6Wit :
    (findJiraUser jOk "ghost".toList).1 =
      Except.error (noUserPre ++ "ghost".toList) ∧
    (CreateJiraIssue jOk pGhost).err = none ∧
    submittedCreates (CreateJiraIssue jOk pGhost).trace =
      [createIssuePayload jOk pGhost] ∧
    (createIssuePayload jOk pGhost).assignee = none ∧
    (CreateJiraIssue jOk pGhost).result =
      createOutcomeResult jOk (createIssuePayload jOk pGhost) :=
  c6Thm_unfoundUserCreatesUnassigned jOk pGhost "ghost".toList
    (by decide) (by decide) (by decide) (by rfl)

/-- C7 (confirmed): with no marker in the description, no explicit
assignee carrying a non-empty account id, and a successful self-identity
call, the submitted issue is assigned to the caller's account id. -/
theorem c7Thm_selfAssignedByDefault (j : JiraMCPServer)
    (p : CreateJiraIssueParams) (me : JiraUser)
    (h1 : containsSub (toLowerG p.description) markerStr = false)
    (h2 : ∀ a, p.assignee = some a → a.accountID = [])
    (h3 : j.client.userGetSelf = Except.ok (some me)) :
    submittedCreates (CreateJiraIssue j p).trace = [createIssuePayload j p] ∧
    ∃ u, (createIssuePayload j p).assignee = some u ∧
      u.accountID = me.accountID := by
  have hra := resolveAssignee_noMarker_self j p h1 h2
  have hsa := selfAssign_some j me h3
  refine ⟨createTrace_creates j p, ⟨userWithAccount me.accountID, ?_, rfl⟩⟩
  show (resolveAssignee j p).1 = some (userWithAccount me.accountID)
  rw [hra, hsa]

/-- C7 (witness): a markerless request with no assignee parameter is
self-assigned to the authenticated caller. -/
theorem c7Wit :
    submittedCreates (CreateJiraIssue jOk pEmptyProj).trace =
      [createIssuePayload jOk pEmptyProj] ∧
    ∃ u, (createIssuePayload jOk pEmptyProj).assignee = some u ∧
      u.accountID = uSelf.accountID :=
  c7Thm_selfAssignedByDefault jOk pEmptyProj uSelf (by decide)
    (by intro a ha; simp [pEmptyProj] at ha) (by rfl)

/-- C8 (confirmed): when the issue fetch fails during update, the result
text contains the requested issue key and an error indication ("Failed"),
and the only outbound call is the fetch itself. -/
theorem c8Thm_fetchFailureStopsUpdate (j : JiraMCPServer) (p : UpdateIssueArgs)
    (e : GoStr)
    (h : j.client.issueGet p.issueKey = Except.error e) :
    containsSub (resultText (UpdateJiraIssue j p)) p.issueKey = true ∧
    containsSub (resultText (UpdateJiraIssue j p)) failedLit = true ∧
    (UpdateJiraIssue j p).trace = [JiraCall.getIssue p.issueKey] := by
  rw [UpdateJiraIssue_fetchFail j p e h]
  refine ⟨?_, ?_, rfl⟩
  · show containsSub (failedGetPre ++ p.issueKey ++ colonSep ++ e) p.issueKey = true
    have h1 := containsSub_middle failedGetPre p.issueKey (colonSep ++ e)
    simp only [List.append_assoc] at h1 ⊢
    exact h1
  · show containsSub (failedGetPre ++ p.issueKey ++ colonSep ++ e) failedLit = true
    have hdecomp : failedGetPre = failedLit ++ " to get JIRA issue ".toList := by decide
    rw [hdecomp]
    have h2 := containsSub_left failedLit
      (" to get JIRA issue ".toList ++ p.issueKey ++ colonSep ++ e)
    simp only [List.append_assoc] at h2 ⊢
    exact h2

/-- C8 (witness): the claim at a concrete failing fetch. -/
theorem c8Wit :
    containsSub (resultText (UpdateJiraIssue jGetBoom pSummaryOnly))
      pSummaryOnly.issueKey = true ∧
    containsSub (resultText (UpdateJiraIssue jGetBoom pSummaryOnly)) failedLit = true ∧
    (UpdateJiraIssue jGetBoom pSummaryOnly).trace =
      [JiraCall.getIssue pSummaryOnly.issueKey] :=
  c8Thm_fetchFailureStopsUpdate jGetBoom pSummaryOnly "boom".toList (by rfl)

/-- C9 (confirmed): the create handler reads neither the components nor
the custom-fields parameter: two requests agreeing on every other field
produce identical handler output (identical submitted issue, result and
trace); the submitted representation carries only project, summary,
description, type, priority, labels and assignee. -/
theorem c9Thm_componentsAndCustomFieldsIgnored (j : JiraMCPServer)
    (p1 p2 : CreateJiraIssueParams)
    (hs : p1.summary = p2.summary) (hd : p1.description = p2.description)
    (ht : p1.issueType = p2.issueType) (hp : p1.priority = p2.priority)
    (hk : p1.projectKey = p2.projectKey) (hl : p1.labels = p2.labels)
    (ha : p1.assignee = p2.assignee) :
    CreateJiraIssue j p1 = CreateJiraIssue j p2 := by
  obtain ⟨s1, d1, t1, pr1, k1, l1, c1, f1, a1⟩ := p1
  obtain ⟨s2, d2, t2, pr2, k2, l2, c2, f2, a2⟩ := p2
  dsimp only at hs hd ht hp hk hl ha
  subst hs hd ht hp hk hl ha
  rfl

/-- C9 (witness): two concrete requests differing only in components and
custom fields produce identical output. -/
theorem c9Wit : CreateJiraIssue jOk pCompA = CreateJiraIssue jOk pCompB :=
  c9Thm_componentsAndCustomFieldsIgnored jOk pCompA pCompB
    rfl rfl rfl rfl rfl rfl rfl
